import Mathlib

/-!
Verification of the request-resolution pipeline of the SpliceAI-lookup server
(`src/server.py`) and of its test client (`src/TestingDocker.py`).

The Python code is embedded shallowly:
* pure string processing (the variant regex, `reverse_complement`,
  allele stripping, gene-list formatting) is translated to executable
  functions on `List Char` / `String`;
* the external collaborators (the annotation interval trees, the tabix
  precomputed-score files, the SpliceAI model, the redis cache) are
  abstracted as function-valued parameters of an `Env` record, since their
  contents live outside the repository;
* raised Python exceptions are modelled as `Option` / `Except` /
  dedicated error constructors; the user-facing error message strings are
  elided and replaced by one constructor per distinct error site.
-/

namespace SpliceaiLookup

/-! ## Character classes of VARIANT_RE (server.py lines 90-98)

The regex is
`(chr)?(?P<chrom>[0-9XYMTt]{1,2})[-\s:]+(?P<pos>[0-9]{1,9})[-\s:]+(?P<ref>[ACGT]+)[-\s:>]+(?P<alt>[ACGT]+)`
compiled without `re.IGNORECASE` and used through `re.match` (anchored at the
start of the string only, trailing text permitted).  `\s` is modelled by the
six ASCII whitespace characters Python matches; the additional unicode
whitespace characters `\s` also matches are irrelevant to the claims. -/

def isDigitChar (c : Char) : Bool := 48 ≤ c.toNat && c.toNat ≤ 57

def isChromChar (c : Char) : Bool :=
  isDigitChar c || decide (c = 'X' ∨ c = 'Y' ∨ c = 'M' ∨ c = 'T' ∨ c = 't')

def isSpaceChar (c : Char) : Bool :=
  decide (c = ' ' ∨ c = '\t' ∨ c = '\n' ∨ c = '\r' ∨ c = Char.ofNat 11 ∨ c = Char.ofNat 12)

def isSep1Char (c : Char) : Bool := decide (c = '-' ∨ c = ':') || isSpaceChar c

def isSep2Char (c : Char) : Bool := isSep1Char c || decide (c = '>')

def isBaseChar (c : Char) : Bool := decide (c = 'A' ∨ c = 'C' ∨ c = 'G' ∨ c = 'T')

/-- Value of a digit string, as computed by Python `int(...)` on the `pos`
group (which is guaranteed by the regex to be 1-9 ASCII digits). -/
def natOfDigits (l : List Char) : Nat :=
  l.foldl (fun n c => 10 * n + (c.toNat - 48)) 0

/-- The optional literal `(chr)?` of VARIANT_RE.  Since none of `c`, `h`, `r`
is in the chromosome character class, a leading `"chr"` is consumed whenever
present (the regex alternative that skips it can never complete a match). -/
def stripChr : List Char → List Char
  | 'c' :: 'h' :: 'r' :: rest => rest
  | l => l

/-- Greedy `{lo,hi}` repetition of a character class followed by a token whose
class is disjoint: take the maximal run and require its length in range.  All
separators and payload classes adjacent in VARIANT_RE are disjoint, so this
maximal-munch parser computes exactly the backtracking regex match. -/
def takeRunBetween (p : Char → Bool) (lo hi : Nat) (l : List Char) :
    Option (List Char × List Char) :=
  if lo ≤ (l.takeWhile p).length ∧ (l.takeWhile p).length ≤ hi then
    some (l.takeWhile p, l.dropWhile p)
  else none

/-- Greedy `+` repetition (at least one character of the class). -/
def takeRunAtLeastOne (p : Char → Bool) (l : List Char) :
    Option (List Char × List Char) :=
  if 1 ≤ (l.takeWhile p).length then some (l.takeWhile p, l.dropWhile p) else none

/-- `VARIANT_RE.match` followed by the group extraction of `parse_variant`
(server.py lines 114-119): `none` models the `ValueError` raised when the
regex does not match; on success the tuple `(chrom, pos, ref, alt)` is
returned with `pos` converted by `int(...)`. -/
def parseVariantAux (l : List Char) : Option (String × Nat × String × String) :=
  match takeRunBetween isChromChar 1 2 (stripChr l) with
  | none => none
  | some (chromT, r1) =>
  match takeRunAtLeastOne isSep1Char r1 with
  | none => none
  | some (_, r2) =>
  match takeRunBetween isDigitChar 1 9 r2 with
  | none => none
  | some (posT, r3) =>
  match takeRunAtLeastOne isSep1Char r3 with
  | none => none
  | some (_, r4) =>
  match takeRunAtLeastOne isBaseChar r4 with
  | none => none
  | some (refT, r5) =>
  match takeRunAtLeastOne isSep2Char r5 with
  | none => none
  | some (_, r6) =>
  match takeRunAtLeastOne isBaseChar r6 with
  | none => none
  | some (altT, _) =>
  some (String.mk chromT, natOfDigits posT, String.mk refT, String.mk altT)

def parse_variant (s : String) : Option (String × Nat × String × String) :=
  parseVariantAux s.toList

example : parse_variant "chr8-140300615-C-G" = some ("8", 140300615, "C", "G") := by decide
example : parse_variant "8 140300615 C>G" = some ("8", 140300615, "C", "G") := by decide
example : parse_variant "chrx-100-A-C" = none := by decide
example : parse_variant "99-100-A-C" = some ("99", 100, "A", "C") := by decide
example : parse_variant "TT-100-A-C" = some ("TT", 100, "A", "C") := by decide
example : parse_variant "1-0-A-C" = some ("1", 0, "A", "C") := by decide
example : parse_variant "MT:123:AT>C" = some ("MT", 123, "AT", "C") := by decide
example : parse_variant "1-1234567890-A-C" = none := by decide

/-! ## String helpers used by `process_variant` (server.py lines 192-302)

All helpers are written with structural recursion on `List Char` so that the
kernel can evaluate them inside `decide` / `rfl` proofs. -/

/-- Python `chrom.replace("chr", "")`: remove every (left-to-right,
non-overlapping) occurrence of the substring `"chr"`. -/
def removeChrAll : List Char → List Char
  | 'c' :: 'h' :: 'r' :: rest => removeChrAll rest
  | c :: rest => c :: removeChrAll rest
  | [] => []

def chromWithoutChr (s : String) : String := String.mk (removeChrAll s.toList)

/-- Python `str(i.data).split("---")[0]`: the part of an interval payload
before the first `"---"`. -/
def takeUntilTripleDash : List Char → List Char
  | [] => []
  | '-' :: '-' :: '-' :: _ => []
  | c :: rest => c :: takeUntilTripleDash rest

def genePart (s : String) : String := String.mk (takeUntilTripleDash s.toList)

/-- Structural de-duplication keeping the last occurrence of each element.
Composed with a sort below it computes the same list as Python
`sorted(set(xs))`, whose output is the distinct elements in ascending
order regardless of which duplicate is kept. -/
def dedupKeepLast : List String → List String
  | [] => []
  | x :: rest => if x ∈ rest then dedupKeepLast rest else x :: dedupKeepLast rest

/-- Python `sep.join(xs)`. -/
def joinSep (sep : String) : List String → String
  | [] => ""
  | [x] => x
  | x :: rest => x ++ sep ++ joinSep sep rest

/-- Lexicographic comparison by code points, i.e. Python `<=` on `str`
(restricted to the code-point range both use). -/
def charListLe : List Char → List Char → Bool
  | [], _ => true
  | _ :: _, [] => false
  | a :: as, b :: bs =>
    if a.toNat < b.toNat then true
    else if b.toNat < a.toNat then false
    else charListLe as bs

def strLe (a b : String) : Bool := charListLe a.toList b.toList

def orderedInsertStr (x : String) : List String → List String
  | [] => [x]
  | y :: ys => if strLe x y then x :: y :: ys else y :: orderedInsertStr x ys

/-- Insertion sort with the Python string order; on the duplicate-free lists
produced by `dedupKeepLast` it returns the same list as Python `sorted`. -/
def sortStr : List String → List String
  | [] => []
  | x :: xs => orderedInsertStr x (sortStr xs)

/-- server.py line 214: `" and ".join(sorted(set([str(i.data).split("---")[0]
for i in other_genome_overlapping_intervals])))`. -/
def formatGeneList (l : List String) : String :=
  joinSep " and " (sortStr (dedupKeepLast (l.map genePart)))

example : formatGeneList ["GENEB---tx2", "GENEA---tx1", "GENEB---tx3"] = "GENEA and GENEB" := by decide

/-- Python `s.split("|")` (used to interpret a pipe-delimited score string
according to SPLICEAI_SCORE_FIELDS, server.py line 86). -/
def splitBarAux : List Char → List Char → List String
  | [], acc => [String.mk acc.reverse]
  | c :: rest, acc =>
    if c = '|' then String.mk acc.reverse :: splitBarAux rest []
    else splitBarAux rest (c :: acc)

def scoreFields (s : String) : List String := splitBarAux s.toList []

/-- After the allele field is dropped the fields of a score string are
`SYMBOL|DS_AG|DS_AL|DS_DG|DS_DL|DP_AG|DP_AL|DP_DG|DP_DL`; channel `i`
(0 = AG, 1 = AL, 2 = DG, 3 = DL) has its delta score at index `1 + i`. -/
def dsField (s : String) (i : Nat) : String := (scoreFields s).getD (1 + i) ""

/-- Position offset of channel `i`; `""` models an absent field. -/
def dpField (s : String) (i : Nat) : String := (scoreFields s).getD (5 + i) ""

/-- Python `s[s.index("|")+1:]` (server.py line 291): everything after the
first `|`; `none` models the `ValueError` raised when no `|` occurs. -/
def dropThroughBar : List Char → Option (List Char)
  | [] => none
  | c :: rest => if c = '|' then some rest else dropThroughBar rest

def stripAllele (s : String) : Option String := (dropThroughBar s.toList).map String.mk

example : stripAllele "CT|AL669831.1|0.00|0.00" = some "AL669831.1|0.00|0.00" := by decide

/-! ## The scoring pipeline `process_variant` (server.py lines 192-302) -/

def SPLICEAI_MAX_DISTANCE_LIMIT : Int := 10000

def SPLICEAI_DEFAULT_DISTANCE : Int := 50

def SPLICEAI_DEFAULT_MASK : Nat := 0

def USE_PRECOMPUTED_SCORES : Nat := 1

/-- One data line of a precomputed-score VCF, already split at tabs:
`fields[0]`, `int(fields[1])`, `fields[3]`, `fields[4]`, `fields[7]`
of server.py lines 250-252. -/
structure PrecompLine where
  chrom : String
  pos : Nat
  ref : String
  alt : String
  info : String
deriving DecidableEq

/-- The external collaborators of `process_variant`, abstracted as functions:
* `ann gv chrom pos` — the payloads (`i.data`) of the intervals returned by
  `ANNOTATION_INTERVAL_TREES[gv][chrom].at(pos)`;
* `fetch key chrom pos` — the lines of `SPLICEAI_CACHE_FILES[key].fetch(chrom,
  pos-1, pos+1)`; `none` models any exception raised there (missing dict key,
  tabix failure), which server.py catches at lines 257-258;
* `rateLimitedComputed` — the value of
  `exceeds_rate_limit(request.remote_addr, "SpliceAI: computed")`;
* `compute chrom pos ref alt distance mask` — `get_delta_scores(...)`, with
  `Except.error` modelling a raised exception (server.py lines 278-282). -/
structure Env where
  ann : String → String → Nat → List String
  fetch : String × String × String → String → Nat → Option (List PrecompLine)
  rateLimitedComputed : Bool
  compute : String → Nat → String → String → Int → Nat → Except String (List String)

/-- The possible outcomes of `process_variant`.  Error constructors stand for
the result dicts carrying an `"error"` key; the message text is elided.
`pyException` models an exception escaping `process_variant` (only possible
for a genome version outside `{"37", "38"}` or a computed/looked-up score
string with no `|`), in which case the Flask request dies with a 500 and no
result dict exists. -/
inductive PVResult where
  | parseError : String → PVResult
  | complexIndel : PVResult
  | wrongBuild : String → PVResult
  | outsideGencode : PVResult
  | rateLimited : PVResult
  | computeError : String → PVResult
  | noScores : PVResult
  | pyException : PVResult
  | success : List String → Option String → PVResult
deriving DecidableEq

/-- Result of `process_variant` plus instrumentation recording whether the
precomputed-score store branch was entered (server.py lines 239-258) and
whether `get_delta_scores` was invoked (line 271). -/
structure PVOutcome where
  result : PVResult
  lookupConsulted : Bool
  computeInvoked : Bool
deriving DecidableEq

/-- server.py line 208: `OTHER_GENOME_VERSION = {"37": "38", "38": "37"}`. -/
def otherGenomeVersion (gv : String) : Option String :=
  if gv = "37" then some "38" else if gv = "38" then some "37" else none

/-- First component of the cache-file key (server.py line 242). -/
def precompMaskMode (mask : Nat) : Option String :=
  if mask = 1 then some "masked" else if mask = 0 then some "raw" else none

/-- Third component of the cache-file key (server.py line 244). -/
def precompBuild (gv : String) : Option String :=
  if gv = "37" then some "hg19" else if gv = "38" then some "hg38" else none

/-- The filtering loop of server.py lines 248-252: keep `fields[7]` of each
fetched line whose chrom, pos, ref and alt match the request exactly. -/
def matchedInfos (lines : List PrecompLine) (chrom : String) (pos : Nat)
    (ref alt : String) : List String :=
  (lines.filter fun f =>
    decide (f.chrom = chrom ∧ f.pos = pos ∧ f.ref = ref ∧ f.alt = alt)).map PrecompLine.info

/-- The precomputed-score branch, server.py lines 237-258.  The first
component records whether the eligibility condition of line 239 held (the
branch was entered and the store consulted); the second is the list of
matching score strings (empty on ineligibility, on a fetch exception, or when
no line matches). -/
def lookupStage (env : Env) (gv chrom : String) (pos : Nat) (ref alt : String)
    (distance : Int) (mask usePre : Nat) : Bool × List String :=
  if (ref.length ≤ 5 ∨ alt.length ≤ 2) ∧ distance = SPLICEAI_DEFAULT_DISTANCE ∧ usePre = 1 then
    let varClass := if ref.length = 1 ∧ alt.length = 1 then "snv" else "indel"
    match precompMaskMode mask, precompBuild gv with
    | some m, some b =>
      match env.fetch (m, varClass, b) chrom pos with
      | some lines => (true, matchedInfos lines chrom pos ref alt)
      | none => (true, [])
    | _, _ => (true, [])
  else (false, [])

/-- Allele-field stripping and final result assembly (server.py lines
291-302). -/
def finishScores (scores : List String) (src : Option String) (lk ci : Bool) : PVOutcome :=
  match scores.mapM stripAllele with
  | none => ⟨.pyException, lk, ci⟩
  | some ss => ⟨.success ss src, lk, ci⟩

/-- server.py lines 192-302, `process_variant`. -/
def process_variant (env : Env) (variant gv : String) (distance : Int)
    (mask usePre : Nat) : PVOutcome :=
  match parse_variant variant with
  | none => ⟨.parseError variant, false, false⟩
  | some (chrom, pos, ref, alt) =>
    if ref.length > 1 ∧ alt.length > 1 then ⟨.complexIndel, false, false⟩
    else
      match otherGenomeVersion gv with
      | none => ⟨.pyException, false, false⟩
      | some otherGv =>
        let c := chromWithoutChr chrom
        if env.ann gv c pos = [] then
          if env.ann otherGv c pos = [] then ⟨.outsideGencode, false, false⟩
          else ⟨.wrongBuild (formatGeneList (env.ann otherGv c pos)), false, false⟩
        else
          let lk := (lookupStage env gv chrom pos ref alt distance mask usePre).1
          let lookupScores := (lookupStage env gv chrom pos ref alt distance mask usePre).2
          if lookupScores = [] then
            if env.rateLimitedComputed then ⟨.rateLimited, lk, false⟩
            else
              match env.compute chrom pos ref alt distance mask with
              | .error e => ⟨.computeError e, lk, true⟩
              | .ok cs =>
                if cs = [] then ⟨.noScores, lk, true⟩
                else finishScores cs (some "computed") lk true
          else finishScores lookupScores (some "lookup") lk false

/-! ## The rate limiter `exceeds_rate_limit` (server.py lines 160-189)

The redis marker keys `f"request {user_id} {request_type}: {epoch_time}"` are
modelled as records; `REDIS.keys(prefix + "*")` is modelled as counting the
live (unexpired) markers of the `(user, request_type)` pair, which is what the
glob matches since none of the three request-type names is a proper prefix of
another.  `time.time()` returns a float, so two markers of one pair
practically never collide on a key; the model keeps them as distinct list
entries. -/

structure RateMarker where
  user : String
  rtype : String
  time : Nat
  expireAt : Nat
deriving DecidableEq

structure RedisRL where
  markers : List RateMarker
deriving DecidableEq

def RATE_LIMIT_WINDOW_SIZE_IN_MINUTES : Nat := 1

/-- server.py lines 78-82, `RATE_LIMIT_REQUESTS_PER_USER_PER_MINUTE`; `none`
for a key not in the dict. -/
def rateLimitPerMinute (rtype : String) : Option Nat :=
  if rtype = "SpliceAI: computed" then some 4
  else if rtype = "SpliceAI: total" then some 20
  else if rtype = "liftover: total" then some 12
  else none

/-- Number of unexpired markers of the pair at time `now` (what
`len(REDIS.keys(...))` sees, redis having dropped expired keys). -/
def liveCount (st : RedisRL) (now : Nat) (user rtype : String) : Nat :=
  (st.markers.filter fun m => decide (m.user = user ∧ m.rtype = rtype ∧ now < m.expireAt)).length

/-- server.py lines 160-189, `exceeds_rate_limit`.  `failAtCount` /
`failAtRecord` model the shared cache backend raising at `REDIS.keys` or at
`REDIS.set` / `REDIS.expire`; both exceptions are caught at line 186 and the
function falls through to `return False`.  The result is `none` when the
request type is not in the table (the `ValueError` of line 170), and
otherwise `some (denied, new state)`. -/
def exceeds_rate_limit (failAtCount failAtRecord : Bool) (st : RedisRL)
    (now : Nat) (user rtype : String) : Option (Bool × RedisRL) :=
  match rateLimitPerMinute rtype with
  | none => none
  | some perMin =>
    let maxRequests := RATE_LIMIT_WINDOW_SIZE_IN_MINUTES * perMin
    if failAtCount then some (false, st)
    else if maxRequests ≤ liveCount st now user rtype then some (true, st)
    else if failAtRecord then some (false, st)
    else some (false, ⟨⟨user, rtype, now, now + RATE_LIMIT_WINDOW_SIZE_IN_MINUTES * 60⟩ :: st.markers⟩)

/-! ## Liftover allele adjustment (server.py lines 107-111 and 552-557) -/

/-- `REVERSE_COMPLEMENT_MAP` (server.py line 107); `none` models the
`KeyError` raised on any other character. -/
def complementChar : Char → Option Char
  | 'A' => some 'T'
  | 'C' => some 'G'
  | 'G' => some 'C'
  | 'T' => some 'A'
  | 'N' => some 'N'
  | _ => none

/-- server.py lines 110-111: `"".join([REVERSE_COMPLEMENT_MAP[n] for n in
seq[::-1]])`. -/
def reverse_complement (s : String) : Option String :=
  (s.toList.reverse.mapM complementChar).map String.mk

/-- The specification-side reverse complement: complement every base, then
reverse.  Characters outside the map are left unchanged; the refinement
theorem below only compares the two on `{A,C,G,T}` strings. -/
def complementBase : Char → Char
  | 'A' => 'T'
  | 'C' => 'G'
  | 'G' => 'C'
  | 'T' => 'A'
  | c => c

def revCompSpec (s : String) : String := String.mk ((s.toList.map complementBase).reverse)

/-- server.py lines 552-557: for `format == "variant"`, `output_ref` /
`output_alt` start as the request's `ref` / `alt` and are reverse-complemented
exactly when the tool reported `output_strand == "-"`.  `none` models the
`KeyError` crash on a character outside the complement map. -/
def liftoverVariantAlleles (ref alt strand : String) : Option (String × String) :=
  if strand = "-" then
    match reverse_complement ref, reverse_complement alt with
    | some r, some a => some (r, a)
    | _, _ => none
  else some (ref, alt)

/-! ## The `/spliceai/` endpoint `run_spliceai` (server.py lines 305-387)

Only the request-resolution logic is modelled: parameter extraction from the
HTTP layer is summarised by a `ScoringRequest` record of already-extracted
raw parameter values, and the response assembly (`params` echo, duration) is
dropped.  `distanceGiven = some none` stands for a `distance` value on which
`int(...)` raises. -/

structure ScoringRequest where
  variant : String
  hg : Option String
  distanceGiven : Option (Option Int)
  maskGiven : Option String
  precomputedGiven : Option String

inductive ParamError where
  | rateLimitTotal
  | missingVariant
  | missingHg
  | badHg
  | badDistance
  | distanceTooBig
  | badMask
  | badPrecomputed
deriving DecidableEq

inductive ScoringOutcome where
  | paramError : ParamError → ScoringOutcome
  | cachedHit : List String → String → ScoringOutcome
  | fresh : PVResult → ScoringOutcome
deriving DecidableEq

/-- `run_spliceai`'s observable effects: the outcome, whether
`add_spliceai_to_redis` was invoked, and the distance value passed to
`process_variant` (when it was called). -/
structure ScoringResult where
  outcome : ScoringOutcome
  storeAttempted : Bool
  distanceForwarded : Option Int
  pvCalled : Bool
deriving DecidableEq

/-- Whether a `process_variant` result dict carries the `"error"` key
(server.py line 371 checks `"error" not in results`); `pyException` never
reaches that line, and mapping it to `true` encodes that no store happens. -/
def hasError : PVResult → Bool
  | .success _ _ => false
  | _ => true

def pyWhitespace : List Char := [' ', '\t', '\n', '\r', Char.ofNat 11, Char.ofNat 12]

/-- Python `str.strip(chars)`: drop the given characters from both ends. -/
def stripSet (cs : List Char) (l : List Char) : List Char :=
  ((l.dropWhile fun c => cs.contains c).reverse.dropWhile fun c => cs.contains c).reverse

/-- server.py line 327: `variant.strip().strip("'").strip('"').strip(",")`. -/
def cleanVariant (s : String) : String :=
  String.mk (stripSet [','] (stripSet ['"'] (stripSet ['\''] (stripSet pyWhitespace s.toList))))

/-- server.py lines 133-134, `get_spliceai_redis_key`. -/
def get_spliceai_redis_key (variant gv : String) (d : Int) (mask pre : Nat) : String :=
  variant ++ "__hg" ++ gv ++ "__d" ++ toString d ++ "__m" ++ toString mask ++ "__pre" ++ toString pre

/-- server.py lines 305-387, `run_spliceai`, from the total-rate-limit check
to the cache-store decision.  `rget` abstracts `get_spliceai_from_redis`
(`none` = miss or redis failure; cached entries, written only for successful
results, are a score list and a source tag to which `":redis"` is appended);
`rateLimitedTotal` abstracts `exceeds_rate_limit(..., "SpliceAI: total")`. -/
def run_spliceai_core (env : Env) (rget : String → Option (List String × String))
    (rateLimitedTotal : Bool) (req : ScoringRequest) : ScoringResult :=
  if rateLimitedTotal then ⟨.paramError .rateLimitTotal, false, none, false⟩ else
  let variant := cleanVariant req.variant
  if variant = "" then ⟨.paramError .missingVariant, false, none, false⟩ else
  match req.hg with
  | none => ⟨.paramError .missingHg, false, none, false⟩
  | some gv =>
  if gv ≠ "37" ∧ gv ≠ "38" then ⟨.paramError .badHg, false, none, false⟩ else
  match (match req.distanceGiven with
         | none => some SPLICEAI_DEFAULT_DISTANCE
         | some v => v) with
  | none => ⟨.paramError .badDistance, false, none, false⟩
  | some d =>
  if d > SPLICEAI_MAX_DISTANCE_LIMIT then ⟨.paramError .distanceTooBig, false, none, false⟩ else
  let maskStr := req.maskGiven.getD (toString SPLICEAI_DEFAULT_MASK)
  if maskStr ≠ "0" ∧ maskStr ≠ "1" then ⟨.paramError .badMask, false, none, false⟩ else
  let mask : Nat := if maskStr = "1" then 1 else 0
  let preStr := req.precomputedGiven.getD (toString USE_PRECOMPUTED_SCORES)
  if preStr ≠ "0" ∧ preStr ≠ "1" then ⟨.paramError .badPrecomputed, false, none, false⟩ else
  let pre : Nat := if preStr = "1" then 1 else 0
  match rget (get_spliceai_redis_key variant gv d mask pre) with
  | some hit => ⟨.cachedHit hit.1 (hit.2 ++ ":redis"), false, none, false⟩
  | none =>
    let pv := process_variant env variant gv d mask pre
    ⟨.fresh pv.result, !hasError pv.result, some d, true⟩

/-! ## The test client's DataFrame update (TestingDocker.py lines 62-99)

`DataProcessor.update_dataframe_with_scores` copies the four DS values
(rounded to two decimals) and four DP values from an API score record into
the DataFrame row, then sets each DP cell to `np.nan` whenever the stored DS
cell equals `0.00`.  DS values are modelled as rationals, `np.nan` as
`none`. -/

structure ApiScore where
  ds_ag : Rat
  ds_al : Rat
  ds_dg : Rat
  ds_dl : Rat
  dp_ag : Int
  dp_al : Int
  dp_dg : Int
  dp_dl : Int
deriving DecidableEq

structure DataRow where
  ds_ag : Rat
  ds_al : Rat
  ds_dg : Rat
  ds_dl : Rat
  dp_ag : Option Int
  dp_al : Option Int
  dp_dg : Option Int
  dp_dl : Option Int
deriving DecidableEq

/-- Rounding to two decimal places, modelling Python `round(x, 2)`.  (Python
rounds float ties to even; the tie-breaking choice is immaterial to every
property proved about this function.) -/
def round2 (x : Rat) : Rat := (⌊x * 100 + 1 / 2⌋ : Int) / 100

/-- TestingDocker.py lines 62-85: the DS/DP cell updates of
`update_dataframe_with_scores` (the control-comparison columns it also fills
in are not modelled). -/
def update_dataframe_with_scores (sc : ApiScore) : DataRow :=
  let a := round2 sc.ds_ag
  let b := round2 sc.ds_al
  let c := round2 sc.ds_dg
  let d := round2 sc.ds_dl
  { ds_ag := a, ds_al := b, ds_dg := c, ds_dl := d
    dp_ag := if a = 0 then none else some sc.dp_ag
    dp_al := if b = 0 then none else some sc.dp_al
    dp_dg := if c = 0 then none else some sc.dp_dg
    dp_dl := if d = 0 then none else some sc.dp_dl }

/-! ## Helper lemmas -/

theorem takeRunBetween_some {p : Char → Bool} {lo hi : Nat} {l t r : List Char}
    (h : takeRunBetween p lo hi l = some (t, r)) :
    lo ≤ t.length ∧ t.length ≤ hi ∧ t.all p = true := by
  unfold takeRunBetween at h
  split at h
  · rename_i hc
    cases h
    exact ⟨hc.1, hc.2, List.all_takeWhile⟩
  · cases h

theorem takeRunAtLeastOne_some {p : Char → Bool} {l t r : List Char}
    (h : takeRunAtLeastOne p l = some (t, r)) :
    t ≠ [] ∧ t.all p = true := by
  unfold takeRunAtLeastOne at h
  split at h
  · rename_i hc
    cases h
    refine ⟨?_, List.all_takeWhile⟩
    intro hnil
    rw [hnil] at hc
    simp at hc
  · cases h

theorem natOfDigits_fold_lt (l : List Char) (hd : l.all isDigitChar = true) :
    ∀ a : Nat, l.foldl (fun n c => 10 * n + (c.toNat - 48)) a < (a + 1) * 10 ^ l.length := by
  induction l with
  | nil => intro a; simp
  | cons c t ih =>
    intro a
    simp only [List.all_cons, Bool.and_eq_true] at hd
    have hc : c.toNat - 48 ≤ 9 := by
      have := hd.1
      simp only [isDigitChar, Bool.and_eq_true, decide_eq_true_eq] at this
      omega
    have ht := ih hd.2 (10 * a + (c.toNat - 48))
    simp only [List.foldl_cons, List.length_cons]
    calc t.foldl (fun n c => 10 * n + (c.toNat - 48)) (10 * a + (c.toNat - 48))
        < (10 * a + (c.toNat - 48) + 1) * 10 ^ t.length := ht
      _ ≤ ((a + 1) * 10) * 10 ^ t.length := by
          apply Nat.mul_le_mul_right
          omega
      _ = (a + 1) * 10 ^ (t.length + 1) := by ring

theorem natOfDigits_lt (l : List Char) (hd : l.all isDigitChar = true)
    (hlen : l.length ≤ 9) : natOfDigits l < 10 ^ 9 := by
  have h := natOfDigits_fold_lt l hd 0
  have : (10 : Nat) ^ l.length ≤ 10 ^ 9 := Nat.pow_le_pow_right (by omega) hlen
  unfold natOfDigits
  omega

theorem toList_mk (l : List Char) : (String.mk l).toList = l := rfl

theorem length_mk (l : List Char) : (String.mk l).length = l.length := rfl

theorem mapM_complementChar (l : List Char) (h : l.all isBaseChar = true) :
    l.mapM complementChar = some (l.map complementBase) := by
  induction l with
  | nil => rfl
  | cons c t ih =>
    simp only [List.all_cons, Bool.and_eq_true] at h
    have hc : complementChar c = some (complementBase c) := by
      have := h.1
      simp only [isBaseChar, decide_eq_true_eq] at this
      rcases this with h1 | h1 | h1 | h1 <;> subst h1 <;> rfl
    rw [List.mapM_cons, hc, ih h.2]
    rfl

theorem lookupStage_fst (env : Env) (gv chrom : String) (pos : Nat)
    (ref alt : String) (distance : Int) (mask usePre : Nat) :
    (lookupStage env gv chrom pos ref alt distance mask usePre).1
      = decide ((ref.length ≤ 5 ∨ alt.length ≤ 2)
                ∧ distance = SPLICEAI_DEFAULT_DISTANCE ∧ usePre = 1) := by
  unfold lookupStage
  split
  · rename_i hc
    simp only [decide_eq_true hc]
    split
    · split <;> rfl
    · rfl
  · rename_i hc
    simp [hc]

theorem finishScores_lookupConsulted (scores : List String) (src : Option String)
    (lk ci : Bool) : (finishScores scores src lk ci).lookupConsulted = lk := by
  unfold finishScores
  split <;> rfl

theorem finishScores_computeInvoked (scores : List String) (src : Option String)
    (lk ci : Bool) : (finishScores scores src lk ci).computeInvoked = ci := by
  unfold finishScores
  split <;> rfl

/-- Soundness of `parse_variant`: every successfully parsed tuple has a
chromosome token of 1-2 characters over `[0-9XYMTt]`, a position below
`10 ^ 9`, and non-empty `{A,C,G,T}` reference and alternate alleles. -/
theorem parse_variant_sound (s chrom : String) (pos : Nat) (ref alt : String)
    (h : parse_variant s = some (chrom, pos, ref, alt)) :
    (1 ≤ chrom.length ∧ chrom.length ≤ 2 ∧ chrom.toList.all isChromChar = true) ∧
    pos < 10 ^ 9 ∧
    (ref.toList ≠ [] ∧ ref.toList.all isBaseChar = true) ∧
    (alt.toList ≠ [] ∧ alt.toList.all isBaseChar = true) := by
  unfold parse_variant parseVariantAux at h
  rcases h1 : takeRunBetween isChromChar 1 2 (stripChr s.toList) with _ | ⟨chromT, r1⟩ <;>
    rw [h1] at h <;> dsimp only at h
  · cases h
  rcases h2 : takeRunAtLeastOne isSep1Char r1 with _ | ⟨s1, r2⟩ <;>
    rw [h2] at h <;> dsimp only at h
  · cases h
  rcases h3 : takeRunBetween isDigitChar 1 9 r2 with _ | ⟨posT, r3⟩ <;>
    rw [h3] at h <;> dsimp only at h
  · cases h
  rcases h4 : takeRunAtLeastOne isSep1Char r3 with _ | ⟨s2, r4⟩ <;>
    rw [h4] at h <;> dsimp only at h
  · cases h
  rcases h5 : takeRunAtLeastOne isBaseChar r4 with _ | ⟨refT, r5⟩ <;>
    rw [h5] at h <;> dsimp only at h
  · cases h
  rcases h6 : takeRunAtLeastOne isSep2Char r5 with _ | ⟨s3, r6⟩ <;>
    rw [h6] at h <;> dsimp only at h
  · cases h
  rcases h7 : takeRunAtLeastOne isBaseChar r6 with _ | ⟨altT, r7⟩ <;>
    rw [h7] at h <;> dsimp only at h
  · cases h
  obtain ⟨hch, hpos, href, halt⟩ : chrom = String.mk chromT ∧ pos = natOfDigits posT
      ∧ ref = String.mk refT ∧ alt = String.mk altT := by
    cases h
    exact ⟨rfl, rfl, rfl, rfl⟩
  subst hch hpos href halt
  obtain ⟨hc1, hc2, hc3⟩ := takeRunBetween_some h1
  obtain ⟨hp1, hp2, hp3⟩ := takeRunBetween_some h3
  obtain ⟨hr1, hr2⟩ := takeRunAtLeastOne_some h5
  obtain ⟨ha1, ha2⟩ := takeRunAtLeastOne_some h7
  refine ⟨⟨hc1, hc2, ?_⟩, ?_, ⟨hr1, hr2⟩, ⟨ha1, ha2⟩⟩
  · exact hc3
  · exact natOfDigits_lt posT hp3 hp2

/-- Under the hypotheses that parsing, the complex-indel check and the
annotation check all pass, `process_variant` consults the precomputed store
exactly when the eligibility condition of server.py line 239 holds. -/
theorem process_variant_lookupConsulted (env : Env) (variant gv otherGv : String)
    (d : Int) (mask usePre : Nat) (chrom : String) (pos : Nat) (ref alt : String)
    (hp : parse_variant variant = some (chrom, pos, ref, alt))
    (hni : ¬(ref.length > 1 ∧ alt.length > 1))
    (hog : otherGenomeVersion gv = some otherGv)
    (hann : ¬ env.ann gv (chromWithoutChr chrom) pos = []) :
    (process_variant env variant gv d mask usePre).lookupConsulted
      = (lookupStage env gv chrom pos ref alt d mask usePre).1 := by
  unfold process_variant
  rw [hp]
  dsimp only
  rw [if_neg hni, hog]
  dsimp only
  rw [if_neg hann]
  split
  · split
    · rfl
    · split
      · rfl
      · split
        · rfl
        · exact finishScores_lookupConsulted ..
  · exact finishScores_lookupConsulted ..

/-! ## Concrete environments used by witnesses and counterexamples -/

/-- An environment in which build "38" covers every position with one
transcript, the precomputed stores contain nothing, and computation
succeeds with one transcript score string. -/
def envEx : Env where
  ann := fun gv _ _ => if gv = "38" then ["GENE1---tx1"] else []
  fetch := fun _ _ _ => some []
  rateLimitedComputed := false
  compute := fun _ _ _ _ _ _ => Except.ok ["G|GENE1|0.45|0.05|0.01|0.00|-10|2|-1|7"]

/-- An environment whose precomputed store holds exactly the example line
quoted in the source comment at server.py line 249:
`['1', '739023', '.', 'C', 'CT', '.', '.', 'SpliceAI=CT|AL669831.1|0.00|0.00|0.00|0.00|-1|-37|-48|-37']`.
The INFO column (`fields[7]`, appended to `scores`) keeps its `SpliceAI=CT`
prefix; the allele strip of server.py line 291 removes everything up to and
including the first `|`, which drops that prefix. -/
def envC1 : Env where
  ann := fun gv _ _ => if gv = "38" then ["AL669831.1---tx1"] else []
  fetch := fun _ _ _ =>
    some [⟨"1", 739023, "C", "CT", "SpliceAI=CT|AL669831.1|0.00|0.00|0.00|0.00|-1|-37|-48|-37"⟩]
  rateLimitedComputed := false
  compute := fun _ _ _ _ _ _ => Except.error "unused"

/-- An environment with no annotation coverage in either build. -/
def envEmpty : Env where
  ann := fun _ _ _ => []
  fetch := fun _ _ _ => some []
  rateLimitedComputed := false
  compute := fun _ _ _ _ _ _ => Except.error "unused"

/-! ## Claims -/

/-- C1, counterexample.  The claim says that in the response returned by the
scoring pipeline (`process_variant`), a channel with delta score 0.00 has its
position-offset field absent.  On the variant 1-739023-C-CT with the
precomputed line quoted at server.py line 249, the pipeline succeeds and its
response score string has DS_AG = "0.00" while DP_AG is still present with
value "-1": `process_variant` only strips the leading allele field and never
removes an offset field. -/
theorem C1_dp_absent_counterexample :
    (process_variant envC1 "1-739023-C-CT" "38" 50 0 1).result
      = .success ["AL669831.1|0.00|0.00|0.00|0.00|-1|-37|-48|-37"] (some "lookup")
    ∧ dsField "AL669831.1|0.00|0.00|0.00|0.00|-1|-37|-48|-37" 0 = "0.00"
    ∧ dpField "AL669831.1|0.00|0.00|0.00|0.00|-1|-37|-48|-37" 0 = "-1"
    ∧ (scoreFields "AL669831.1|0.00|0.00|0.00|0.00|-1|-37|-48|-37").length = 9 := by
  decide

/-- C1, amended: the server's responses keep all four DP fields regardless of
the DS values; the DS == 0.00 ⇒ DP undefined rule is applied client-side by
`DataProcessor.update_dataframe_with_scores` (TestingDocker.py lines 79-85),
which sets a DP cell to NaN exactly when the stored (rounded) DS cell of the
same channel equals 0.00 — for every channel independently. -/
theorem C1_client_zeroes_dp (sc : ApiScore) :
    ((update_dataframe_with_scores sc).ds_ag = 0 →
       (update_dataframe_with_scores sc).dp_ag = none)
    ∧ ((update_dataframe_with_scores sc).ds_al = 0 →
       (update_dataframe_with_scores sc).dp_al = none)
    ∧ ((update_dataframe_with_scores sc).ds_dg = 0 →
       (update_dataframe_with_scores sc).dp_dg = none)
    ∧ ((update_dataframe_with_scores sc).ds_dl = 0 →
       (update_dataframe_with_scores sc).dp_dl = none) := by
  refine ⟨?_, ?_, ?_, ?_⟩ <;> intro h <;>
    simp only [update_dataframe_with_scores] at h ⊢ <;> simp [h]

theorem C1_client_zeroes_dp_witness :
    (update_dataframe_with_scores ⟨0, 1, 0, 1, -1, -37, -48, -37⟩).ds_ag = 0
    ∧ (update_dataframe_with_scores ⟨0, 1, 0, 1, -1, -37, -48, -37⟩).dp_ag = none :=
  ⟨by norm_num [update_dataframe_with_scores, round2],
   (C1_client_zeroes_dp ⟨0, 1, 0, 1, -1, -37, -48, -37⟩).1
     (by norm_num [update_dataframe_with_scores, round2])⟩

/-- C2, counterexample.  The claim requires `len(ref) <= 5 AND len(alt) <= 2`
for the precomputed store to be consulted and asserts that a variant with
`len(ref) = 6, len(alt) = 1` never reaches it; but server.py line 239 uses
`or`, so the store is consulted for 1-100-AAAAAA-C at the default distance
with the precomputed flag set. -/
theorem C2_eligibility_counterexample :
    parse_variant "1-100-AAAAAA-C" = some ("1", 100, "AAAAAA", "C")
    ∧ ("AAAAAA" : String).length = 6 ∧ ("C" : String).length = 1
    ∧ (process_variant envEx "1-100-AAAAAA-C" "38" 50 0 1).lookupConsulted = true := by
  decide

/-- C2, amended: for a variant that passes parsing, the complex-indel check
and the annotation check, the precomputed store is consulted iff the
requested distance equals the default (50) and the precomputed flag is 1.
The length condition in the code is the disjunction
`len(ref) <= 5 or len(alt) <= 2`, which every variant surviving the
complex-indel check satisfies, so it imposes no further restriction. -/
theorem C2_lookup_eligibility (env : Env) (variant gv otherGv : String)
    (d : Int) (mask usePre : Nat) (chrom : String) (pos : Nat) (ref alt : String)
    (hp : parse_variant variant = some (chrom, pos, ref, alt))
    (hni : ¬(ref.length > 1 ∧ alt.length > 1))
    (hog : otherGenomeVersion gv = some otherGv)
    (hann : ¬ env.ann gv (chromWithoutChr chrom) pos = []) :
    (process_variant env variant gv d mask usePre).lookupConsulted = true
      ↔ (d = SPLICEAI_DEFAULT_DISTANCE ∧ usePre = 1) := by
  rw [process_variant_lookupConsulted env variant gv otherGv d mask usePre chrom pos ref alt
        hp hni hog hann,
      lookupStage_fst, decide_eq_true_iff]
  constructor
  · intro hc
    exact hc.2
  · intro hc
    refine ⟨?_, hc⟩
    omega

theorem C2_lookup_eligibility_witness :
    ((process_variant envEx "1-100-AAAAAA-C" "38" 50 0 1).lookupConsulted = true
      ↔ ((50 : Int) = SPLICEAI_DEFAULT_DISTANCE ∧ (1 : Nat) = 1)) :=
  C2_lookup_eligibility envEx "1-100-AAAAAA-C" "38" "37" 50 0 1 "1" 100 "AAAAAA" "C"
    (by decide) (by decide) rfl (by decide)

/-- C3, counterexample.  The claim states the parser accepts exactly the
chromosomes {1-22, X, Y, M, MT} case-insensitively, with a positive position:
it would have to reject "99" and "TT" and accept "chrx".  The regex class
`[0-9XYMTt]{1,2}` instead accepts "99" and "TT", rejects lowercase "x", and
the position group `[0-9]{1,9}` accepts 0. -/
theorem C3_parse_counterexample :
    parse_variant "chrx-100-A-C" = none
    ∧ parse_variant "99-100-A-C" = some ("99", 100, "A", "C")
    ∧ parse_variant "TT-100-A-C" = some ("TT", 100, "A", "C")
    ∧ parse_variant "1-0-A-C" = some ("1", 0, "A", "C") := by
  decide

/-- C3, amended: for every input string the parser either succeeds returning
(chrom, pos, ref, alt) with chrom any 1-2 character token over the class
`[0-9XYMTt]` (so "99", "TT", "0" are accepted and of the lowercase letters
only "t" is), pos a nonnegative integer of at most 9 digits (zero allowed),
and ref/alt non-empty uppercase sequences over {A,C,G,T}; or it fails with a
parse error (`ValueError`) and yields no partial result. -/
theorem C3_parse_sound (s chrom : String) (pos : Nat) (ref alt : String)
    (h : parse_variant s = some (chrom, pos, ref, alt)) :
    (1 ≤ chrom.length ∧ chrom.length ≤ 2 ∧ chrom.toList.all isChromChar = true) ∧
    pos < 10 ^ 9 ∧
    (ref.toList ≠ [] ∧ ref.toList.all isBaseChar = true) ∧
    (alt.toList ≠ [] ∧ alt.toList.all isBaseChar = true) :=
  parse_variant_sound s chrom pos ref alt h

theorem C3_parse_sound_witness :
    parse_variant "chr9-123-AC-G" = some ("9", 123, "AC", "G")
    ∧ ((1 ≤ ("9" : String).length ∧ ("9" : String).length ≤ 2
          ∧ ("9" : String).toList.all isChromChar = true) ∧
       (123 : Nat) < 10 ^ 9 ∧
       (("AC" : String).toList ≠ [] ∧ ("AC" : String).toList.all isBaseChar = true) ∧
       (("G" : String).toList ≠ [] ∧ ("G" : String).toList.all isBaseChar = true)) :=
  ⟨by decide, C3_parse_sound "chr9-123-AC-G" "9" 123 "AC" "G" (by decide)⟩

/-- C4: with a reachable backend, one admission check for a recognized
request class denies without changing the rate-limit state when the live
marker count has reached the class ceiling, and otherwise admits after
recording one new marker whose self-expiry equals the window size
(`RATE_LIMIT_WINDOW_SIZE_IN_MINUTES * 60` seconds). -/
theorem C4_admission (st : RedisRL) (now : Nat) (user rtype : String) (perMin : Nat)
    (h : rateLimitPerMinute rtype = some perMin) :
    (RATE_LIMIT_WINDOW_SIZE_IN_MINUTES * perMin ≤ liveCount st now user rtype →
       exceeds_rate_limit false false st now user rtype = some (true, st))
    ∧ (liveCount st now user rtype < RATE_LIMIT_WINDOW_SIZE_IN_MINUTES * perMin →
       exceeds_rate_limit false false st now user rtype
         = some (false,
             ⟨⟨user, rtype, now, now + RATE_LIMIT_WINDOW_SIZE_IN_MINUTES * 60⟩ :: st.markers⟩)) := by
  unfold exceeds_rate_limit
  rw [h]
  constructor <;> intro hc <;> dsimp only
  · rw [if_neg (by simp), if_pos hc]
  · rw [if_neg (by simp), if_neg (by omega), if_neg (by simp)]

def stFull : RedisRL :=
  ⟨[⟨"u", "SpliceAI: computed", 10, 70⟩, ⟨"u", "SpliceAI: computed", 20, 80⟩,
    ⟨"u", "SpliceAI: computed", 30, 90⟩, ⟨"u", "SpliceAI: computed", 40, 100⟩]⟩

theorem C4_admission_witness :
    exceeds_rate_limit false false stFull 50 "u" "SpliceAI: computed" = some (true, stFull)
    ∧ exceeds_rate_limit false false ⟨[]⟩ 50 "u" "SpliceAI: computed"
        = some (false, ⟨[⟨"u", "SpliceAI: computed", 50, 110⟩]⟩) :=
  ⟨(C4_admission stFull 50 "u" "SpliceAI: computed" 4 (by decide)).1 (by decide),
   (C4_admission ⟨[]⟩ 50 "u" "SpliceAI: computed" 4 (by decide)).2 (by decide)⟩

/-- C5: for a parsed, non-complex variant whose position has no covering
annotation interval in the requested build, `process_variant` returns the
likely-wrong-genome-build error listing the overlapping gene names when the
other build covers the position, and the out-of-annotation error when it does
not; in both cases neither the precomputed store nor the computation adapter
is touched. -/
theorem C5_build_check (env : Env) (variant gv otherGv : String) (d : Int)
    (mask usePre : Nat) (chrom : String) (pos : Nat) (ref alt : String)
    (hp : parse_variant variant = some (chrom, pos, ref, alt))
    (hni : ¬(ref.length > 1 ∧ alt.length > 1))
    (hog : otherGenomeVersion gv = some otherGv)
    (hempty : env.ann gv (chromWithoutChr chrom) pos = []) :
    (¬ env.ann otherGv (chromWithoutChr chrom) pos = [] →
       process_variant env variant gv d mask usePre
         = ⟨.wrongBuild (formatGeneList (env.ann otherGv (chromWithoutChr chrom) pos)),
            false, false⟩)
    ∧ (env.ann otherGv (chromWithoutChr chrom) pos = [] →
       process_variant env variant gv d mask usePre = ⟨.outsideGencode, false, false⟩) := by
  constructor <;> intro h2 <;> unfold process_variant <;> rw [hp] <;> dsimp only <;>
    rw [if_neg hni, hog] <;> dsimp only <;> rw [if_pos hempty]
  · rw [if_neg h2]
  · rw [if_pos h2]

theorem C5_build_check_witness :
    process_variant envEx "chr1-100-A-G" "37" 50 0 1
      = ⟨.wrongBuild (formatGeneList ["GENE1---tx1"]), false, false⟩
    ∧ process_variant envEmpty "chr1-100-A-G" "37" 50 0 1
        = ⟨.outsideGencode, false, false⟩ :=
  ⟨(C5_build_check envEx "chr1-100-A-G" "37" "38" 50 0 1 "1" 100 "A" "G"
      (by decide) (by decide) (by decide) (by decide)).1 (by decide),
   (C5_build_check envEmpty "chr1-100-A-G" "37" "38" 50 0 1 "1" 100 "A" "G"
      (by decide) (by decide) (by decide) (by decide)).2 (by decide)⟩

theorem reverse_complement_eq_spec (s : String) (h : s.toList.all isBaseChar = true) :
    reverse_complement s = some (revCompSpec s) := by
  unfold reverse_complement revCompSpec
  have hrev : s.toList.reverse.all isBaseChar = true := by
    rw [List.all_reverse]
    exact h
  rw [mapM_complementChar _ hrev]
  simp only [Option.map_some']
  rw [List.map_reverse]

/-- C6: for a liftover request in "variant" format with ref/alt over
{A,C,G,T}, the reported output alleles are the reverse complement of the
input alleles when the tool's output strand is "-", and the unchanged input
alleles when it is "+". -/
theorem C6_strand_alleles (ref alt : String)
    (h1 : ref.toList.all isBaseChar = true) (h2 : alt.toList.all isBaseChar = true) :
    liftoverVariantAlleles ref alt "-" = some (revCompSpec ref, revCompSpec alt)
    ∧ liftoverVariantAlleles ref alt "+" = some (ref, alt) := by
  constructor
  · unfold liftoverVariantAlleles
    rw [if_pos rfl, reverse_complement_eq_spec ref h1, reverse_complement_eq_spec alt h2]
  · unfold liftoverVariantAlleles
    rw [if_neg (by decide)]

theorem C6_strand_alleles_witness :
    liftoverVariantAlleles "AC" "G" "-" = some (revCompSpec "AC", revCompSpec "G")
    ∧ liftoverVariantAlleles "AC" "G" "+" = some ("AC", "G") :=
  C6_strand_alleles "AC" "G" (by decide) (by decide)

theorem hasError_eq_false_iff (r : PVResult) :
    hasError r = false ↔ ∃ scores src, r = .success scores src := by
  cases r <;> simp [hasError]

/-- C7: within one scoring request, `add_spliceai_to_redis` is invoked iff
`process_variant` ran (i.e. the result cache missed) and produced a
successful score set; every error outcome — parameter error, rate limit,
parse, complex-indel, out-of-annotation or computation error — and every
cache hit is returned without a cache store. -/
theorem C7_store_iff_success (env : Env) (rget : String → Option (List String × String))
    (rl : Bool) (req : ScoringRequest) :
    (run_spliceai_core env rget rl req).storeAttempted = true
      ↔ ∃ scores src, (run_spliceai_core env rget rl req).outcome
          = .fresh (.success scores src) := by
  simp only [run_spliceai_core]
  repeat' split
  all_goals simp [hasError_eq_false_iff]

/-- C8: every parsed variant with `len(ref) > 1` and `len(alt) > 1` yields
the complex-indel error, with neither the precomputed store nor the
computation adapter invoked. -/
theorem C8_complex_indel (env : Env) (variant gv : String) (d : Int) (mask usePre : Nat)
    (chrom : String) (pos : Nat) (ref alt : String)
    (hp : parse_variant variant = some (chrom, pos, ref, alt))
    (h1 : ref.length > 1) (h2 : alt.length > 1) :
    process_variant env variant gv d mask usePre = ⟨.complexIndel, false, false⟩ := by
  unfold process_variant
  rw [hp]
  dsimp only
  rw [if_pos ⟨h1, h2⟩]

theorem C8_complex_indel_witness :
    process_variant envEx "1-100-AT-GC" "38" 50 0 1 = ⟨.complexIndel, false, false⟩ :=
  C8_complex_indel envEx "1-100-AT-GC" "38" 50 0 1 "1" 100 "AT" "GC" (by decide)
    (by decide) (by decide)

/-- C9: for every recognized request class, when the shared cache backend
raises during the marker count the admission check returns `False` (the
request is admitted) with the state unchanged, and likewise when it raises
during the marker recording (which is only reached below the ceiling); with
the backend unavailable, rate limiting fails open for every class and every
client. -/
theorem C9_fail_open (failAtRecord : Bool) (st : RedisRL) (now : Nat)
    (user rtype : String) (perMin : Nat)
    (h : rateLimitPerMinute rtype = some perMin) :
    exceeds_rate_limit true failAtRecord st now user rtype = some (false, st)
    ∧ (liveCount st now user rtype < RATE_LIMIT_WINDOW_SIZE_IN_MINUTES * perMin →
       exceeds_rate_limit false true st now user rtype = some (false, st)) := by
  unfold exceeds_rate_limit
  rw [h]
  constructor
  · dsimp only
    rw [if_pos rfl]
  · intro hc
    dsimp only
    rw [if_neg (by simp), if_neg (by omega), if_pos rfl]

theorem C9_fail_open_witness :
    exceeds_rate_limit true false stFull 50 "u" "SpliceAI: computed" = some (false, stFull)
    ∧ exceeds_rate_limit false true ⟨[]⟩ 50 "u" "SpliceAI: computed" = some (false, ⟨[]⟩) :=
  ⟨(C9_fail_open false stFull 50 "u" "SpliceAI: computed" 4 (by decide)).1,
   (C9_fail_open false ⟨[]⟩ 50 "u" "SpliceAI: computed" 4 (by decide)).2 (by decide)⟩

/-- C10: the scoring endpoint checks only the upper bound of the distance
parameter: every integer `d ≤ 10000` (including 10000, 0 and negatives)
passes validation and is forwarded unchanged to `process_variant`, while
`d > 10000` is rejected with a client error before the pipeline runs. -/
theorem C10_distance_gate (env : Env) (rget : String → Option (List String × String))
    (req : ScoringRequest) (gv : String) (d : Int)
    (hv : ¬ cleanVariant req.variant = "")
    (hhg : req.hg = some gv)
    (hgv : gv = "37" ∨ gv = "38")
    (hd : req.distanceGiven = some (some d))
    (hmask : req.maskGiven = none ∨ req.maskGiven = some "0" ∨ req.maskGiven = some "1")
    (hpre : req.precomputedGiven = none ∨ req.precomputedGiven = some "0"
            ∨ req.precomputedGiven = some "1")
    (hmiss : ∀ k, rget k = none) :
    (d > SPLICEAI_MAX_DISTANCE_LIMIT →
       run_spliceai_core env rget false req
         = ⟨.paramError .distanceTooBig, false, none, false⟩)
    ∧ (d ≤ SPLICEAI_MAX_DISTANCE_LIMIT →
       (run_spliceai_core env rget false req).pvCalled = true
       ∧ (run_spliceai_core env rget false req).distanceForwarded = some d) := by
  constructor
  · intro hgt
    simp only [run_spliceai_core]
    rw [if_neg (by simp), if_neg hv, hhg]
    dsimp only
    rw [if_neg (by rcases hgv with h | h <;> simp [h]), hd]
    dsimp only
    rw [if_pos hgt]
  · intro hle
    simp only [run_spliceai_core]
    rw [if_neg (by simp), if_neg hv, hhg]
    dsimp only
    rw [if_neg (by rcases hgv with h | h <;> simp [h]), hd]
    dsimp only
    rw [if_neg (by omega)]
    rcases hmask with hm | hm | hm <;> rw [hm] <;> dsimp only [Option.getD] <;>
      rcases hpre with hq | hq | hq <;> rw [hq] <;> dsimp only [Option.getD] <;>
      rw [if_neg (by decide), if_neg (by decide), hmiss] <;> exact ⟨rfl, rfl⟩

def reqW : ScoringRequest := ⟨"1-100-A-C", some "38", some (some 10000), none, none⟩

theorem C10_distance_gate_witness :
    (run_spliceai_core envEx (fun _ => none) false reqW).pvCalled = true
    ∧ (run_spliceai_core envEx (fun _ => none) false reqW).distanceForwarded
        = some 10000 :=
  (C10_distance_gate envEx (fun _ => none) reqW "38" 10000 (by decide) rfl (Or.inr rfl)
     rfl (Or.inl rfl) (Or.inl rfl) (fun _ => rfl)).2 (by decide)

end SpliceaiLookup
